import Mathlib

/-!
Verification development for the fleet-operational-risk-dashboard scoring layer.

The TypeScript sources are shallowly embedded: JavaScript numbers become `ℚ`,
`undefined`/optional values become `Option`, the wall clock (`Date.now()`)
becomes an explicit `now : ℚ` parameter (epoch milliseconds), and a function
body guarded by `try`/`catch` is split into a total body plus an explicit
`Except`-valued wrapper so that the catch branch is visible in the model.

Embedded modules:
- `src/src/types/risk.ts` (data model),
- `src/src/services/riskEngine.ts` (`calculateRisk`),
- `src/src/services/maintenanceService.ts` (`hashVehicleId`, `getServiceInfo`),
- the fuel intelligence module (`round1`, `detectSuddenDrop`,
  `detectAbnormalConsumption`, `evaluateFuelRisk`),
- the priority ranker (`getMinutesWithoutCommunication`, `isPredictedToWorsen`,
  `computePriorityScore`, `topFive`),
- the per-vehicle aggregation loop of `src/src/App.vue` (`loadData`).
-/

namespace FleetRisk

/-- Risk level buckets, from types/risk.ts (`RiskLevel`). -/
inductive RiskLevel where
  | ok
  | warning
  | critical
deriving DecidableEq, Repr

/-- Maintenance status buckets, from types/risk.ts (`ServiceStatus`). -/
inductive ServiceStatus where
  | ok
  | warning
  | critical
deriving DecidableEq, Repr

/-- Reason discriminants, from types/risk.ts (`RiskReasonType`). -/
inductive RiskReasonType where
  | speedExtreme
  | speedHigh
  | speedAboveLimit
  | speedSlightlyElevated
  | noUpdate
  | noUpdateCritical
  | ecoEvent
  | weather
deriving DecidableEq, Repr

/-- A structured risk reason, from types/risk.ts (`RiskReason`).  The risk
engine only ever stores numeric values in `value`, so it is modelled as `ℚ`;
`count` is the optional aggregated eco-event count.  The optional `weatherId`
display field, which the scoring layer never writes, is omitted. -/
structure RiskReason where
  type : RiskReasonType
  value : ℚ
  count : Option ℕ := none
deriving DecidableEq, Repr

/-- Last known coordinates of a vehicle (`vehicle.LastPosition`). -/
structure LastPosition where
  Latitude : ℚ
  Longitude : ℚ
deriving DecidableEq, Repr

/-- The vehicle input record, restricted to the fields that the scoring layer
reads: `Code`, `Name`, `SPZ`, `Speed`, `LastPositionTimestamp` (modelled
directly as epoch milliseconds rather than an ISO string), `LastPosition`,
and `Odometer` (used by the aggregator for the service status). -/
structure Vehicle where
  Code : String
  Name : String
  SPZ : Option String
  Speed : ℚ
  LastPositionTimestamp : ℚ
  LastPosition : Option LastPosition
  Odometer : Option ℚ := none
deriving DecidableEq, Repr

/-- An eco-driving event.  Only the `EventSeverity` field is read by the
scoring layer; the remaining telemetry fields of types/ecoEvent.ts are
omitted. -/
structure EcoEvent where
  EventSeverity : ℚ
deriving DecidableEq, Repr

/-- Modelled from the spec: `weatherRiskEngine.ts` is not under src/ (only its
caller `riskEngine.ts` is).  The spec describes the WeatherRiskAdapter as a
pure function converting a weather observation into a bounded risk-point
contribution, so an observation is modelled by the point value
(`weatherRiskBump`) that the adapter derives from it. -/
structure WeatherData where
  weatherRiskBump : ℕ
deriving DecidableEq, Repr

/-- Modelled from the spec: the WeatherRiskAdapter contract
`calculateWeatherRisk(weatherData) -> { weatherRiskBump }`. -/
def calculateWeatherRisk (weatherData : WeatherData) : ℕ :=
  weatherData.weatherRiskBump

/-- Assessment position; the engine writes the numeric coordinates (the
`?? 0` fallback) here. -/
structure AssessmentPosition where
  latitude : ℚ
  longitude : ℚ
deriving DecidableEq, Repr

/-- The result record of `calculateRisk`, from types/risk.ts
(`RiskAssessment`).  `calculatedAt` (an ISO string produced from the clock in
the source) is modelled as the numeric `now` passed to the engine. -/
structure RiskAssessment where
  vehicleId : String
  vehicleName : String
  spz : String
  speed : ℚ
  riskScore : ℚ
  riskLevel : RiskLevel
  reasons : List RiskReason
  calculatedAt : ℚ
  position : AssessmentPosition
deriving DecidableEq, Repr

/-- The SPEED RISK block of `calculateRisk` (riskEngine.ts lines 25-49):
first matching strict-greater tier adds its points and pushes its reason. -/
def speedRisk (speed : ℚ) : ℚ × List RiskReason :=
  if speed > 130 then (4, [{ type := .speedExtreme, value := speed }])
  else if speed > 110 then (3, [{ type := .speedHigh, value := speed }])
  else if speed > 95 then (2, [{ type := .speedAboveLimit, value := speed }])
  else if speed > 85 then (1, [{ type := .speedSlightlyElevated, value := speed }])
  else (0, [])

/-- The UPDATE DELAY RISK block of `calculateRisk` (riskEngine.ts lines
55-89).  `minutesSinceUpdate` is the unfloored elapsed time in minutes; the
reason value is its floor, exactly as in the source. -/
def updateRisk (now lastUpdateTime : ℚ) : ℚ × List RiskReason :=
  let minutesSinceUpdate : ℚ := (now - lastUpdateTime) / (1000 * 60)
  let minutes : ℤ := ⌊minutesSinceUpdate⌋
  if minutesSinceUpdate > 360 then (6, [{ type := .noUpdateCritical, value := (minutes : ℚ) }])
  else if minutesSinceUpdate > 180 then (4, [{ type := .noUpdate, value := (minutes : ℚ) }])
  else if minutesSinceUpdate > 60 then (2, [{ type := .noUpdate, value := (minutes : ℚ) }])
  else if minutesSinceUpdate > 15 then (1, [{ type := .noUpdate, value := (minutes : ℚ) }])
  else (0, [])

/-- The severity total of an eco-event list, mirroring
`ecoEvents.reduce((sum, event) => sum + event.EventSeverity, 0)`. -/
def totalSeverity (ecoEvents : List EcoEvent) : ℚ :=
  ecoEvents.foldl (fun sum event => sum + event.EventSeverity) 0

/-- The ECO EVENT RISK block of `calculateRisk` (riskEngine.ts lines 95-108):
when the list is present and non-empty, the severity total is added and one
aggregated reason is pushed. -/
def ecoRisk (ecoEvents : Option (List EcoEvent)) : ℚ × List RiskReason :=
  match ecoEvents with
  | some evs =>
      if evs.length > 0 then
        (totalSeverity evs, [{ type := .ecoEvent, value := totalSeverity evs, count := some evs.length }])
      else (0, [])
  | none => (0, [])

/-- The weather-points computation of `calculateRisk` (riskEngine.ts lines
114-118): the bump is computed whenever weather data is present. -/
def weatherPoints (weatherData : Option WeatherData) : ℚ :=
  match weatherData with
  | some w => (calculateWeatherRisk w : ℚ)
  | none => 0

/-- The final risk-level bucketing of `calculateRisk` (riskEngine.ts lines
132-140). -/
def riskLevelOfScore (riskScore : ℚ) : RiskLevel :=
  if riskScore ≥ 6 then .critical
  else if riskScore ≥ 3 then .warning
  else .ok

/-- The body of `calculateRisk` (riskEngine.ts lines 17-155), i.e. the
`try` block: reasons are pushed in source order (speed, staleness, eco,
weather) and the weather bump is added to the score only when
`weatherEnabled` holds, while its reason is pushed whenever the bump is
positive. -/
def calculateRiskBody (vehicle : Vehicle) (ecoEvents : Option (List EcoEvent))
    (weatherData : Option WeatherData) (weatherEnabled : Bool) (now : ℚ) : RiskAssessment :=
  let sp := speedRisk vehicle.Speed
  let up := updateRisk now vehicle.LastPositionTimestamp
  let ec := ecoRisk ecoEvents
  let wp := weatherPoints weatherData
  let wReasons : List RiskReason := if wp > 0 then [{ type := .weather, value := wp }] else []
  let riskScore := sp.1 + up.1 + ec.1 + (if weatherEnabled then wp else 0)
  { vehicleId := vehicle.Code
    vehicleName := vehicle.Name
    spz := vehicle.SPZ.getD ""
    speed := vehicle.Speed
    riskScore := riskScore
    riskLevel := riskLevelOfScore riskScore
    reasons := sp.2 ++ up.2 ++ ec.2 ++ wReasons
    calculatedAt := now
    position :=
      { latitude := (vehicle.LastPosition.map LastPosition.Latitude).getD 0
        longitude := (vehicle.LastPosition.map LastPosition.Longitude).getD 0 } }

/-- The `catch` branch of `calculateRisk` (riskEngine.ts lines 156-172): the
fail-safe zero-score assessment.  The source writes the string sentinel "0"
for the coordinates here; the model uses the numeric 0 sentinel. -/
def riskFallback (vehicle : Vehicle) (now : ℚ) : RiskAssessment :=
  { vehicleId := vehicle.Code
    vehicleName := vehicle.Name
    spz := vehicle.SPZ.getD ""
    speed := vehicle.Speed
    riskScore := 0
    riskLevel := .ok
    reasons := []
    calculatedAt := now
    position :=
      { latitude := (vehicle.LastPosition.map LastPosition.Latitude).getD 0
        longitude := (vehicle.LastPosition.map LastPosition.Longitude).getD 0 } }

/-- The `try`/`catch` structure of `calculateRisk`: a faulting body (an
`Except.error`, standing for any exception thrown while scoring) is converted
into the fail-safe fallback; a normal body result is returned unchanged.
In either case a `RiskAssessment` is returned, never an exception. -/
def tryCalculateRisk (body : Except String RiskAssessment) (vehicle : Vehicle) (now : ℚ) :
    RiskAssessment :=
  match body with
  | Except.ok a => a
  | Except.error _ => riskFallback vehicle now

/-- The exported `calculateRisk` (riskEngine.ts lines 11-173): the pure body
run under the try/catch wrapper. -/
def calculateRisk (vehicle : Vehicle) (ecoEvents : Option (List EcoEvent))
    (weatherData : Option WeatherData) (weatherEnabled : Bool) (now : ℚ) : RiskAssessment :=
  tryCalculateRisk (Except.ok (calculateRiskBody vehicle ecoEvents weatherData weatherEnabled now))
    vehicle now

/-! ### maintenanceService.ts -/

/-- The service-info record, from types/risk.ts (`ServiceInfo`). -/
structure ServiceInfo where
  odometer : ℚ
  nextServiceAt : ℚ
  lastServiceAt : Option ℚ := none
  remainingKm : ℚ
  serviceStatus : ServiceStatus
deriving DecidableEq, Repr

/-- Constant `SERVICE_INTERVAL_KM` of maintenanceService.ts. -/
def SERVICE_INTERVAL_KM : ℕ := 10000

/-- Constant `ODOMETER_MIN_KM` of maintenanceService.ts. -/
def ODOMETER_MIN_KM : ℕ := 10000

/-- Constant `ODOMETER_RANGE_KM` of maintenanceService.ts. -/
def ODOMETER_RANGE_KM : ℕ := 170000

/-- Wrap an integer into the signed 32-bit range, as JavaScript `| 0` does. -/
def toSigned32 (x : ℤ) : ℤ :=
  (x + 2 ^ 31) % 2 ^ 32 - 2 ^ 31

/-- The first UTF-16 code unit of a character, as `char.charCodeAt(0)`
returns for the single-code-point strings produced by `for (const char of
id)`: the code point itself below 0x10000, otherwise its high surrogate. -/
def charCodeAt0 (c : Char) : ℕ :=
  if c.toNat < 65536 then c.toNat else 55296 + (c.toNat - 65536) / 1024

/-- The `hashVehicleId` of maintenanceService.ts: a polynomial base-31 hash
with `Math.imul` 32-bit wrapping at every step, made non-negative with
`Math.abs` at the end. -/
def hashVehicleId (id : String) : ℕ :=
  (id.data.foldl (fun h c => toSigned32 (toSigned32 (31 * h) + charCodeAt0 c)) 0).natAbs

/-- The `getServiceInfo` of maintenanceService.ts: a deterministic mock
derived from the id hash alone.  `h >>> 4` equals `h / 2^4` here because the
hash is non-negative and below `2^32`. -/
def getServiceInfo (vehicleId : String) : ServiceInfo :=
  let h := hashVehicleId vehicleId
  let odometer := ODOMETER_MIN_KM + h % (ODOMETER_RANGE_KM + 1)
  let remainingKm := (h / 2 ^ 4) % SERVICE_INTERVAL_KM
  let nextServiceAt := odometer + remainingKm
  let serviceStatus : ServiceStatus :=
    if remainingKm ≤ 500 then .critical
    else if remainingKm ≤ 2000 then .warning
    else .ok
  { odometer := (odometer : ℚ)
    nextServiceAt := (nextServiceAt : ℚ)
    lastServiceAt := none
    remainingKm := (remainingKm : ℚ)
    serviceStatus := serviceStatus }

/-! ### The fuel intelligence module (fuelIntelligence.ts) -/

/-- A fuel/speed sensor snapshot, from fuelService.ts (`FuelSnapshot`); each
field may be missing (sparse sensor union). -/
structure FuelSnapshot where
  timestamp : String := ""
  fuelVolume : Option ℚ := none
  fuelConsumedTotal : Option ℚ := none
  speed : Option ℚ := none
deriving DecidableEq, Repr

/-- Fuel severities, from fuelIntelligence.ts (`FuelSeverity`). -/
inductive FuelSeverity where
  | none
  | low
  | medium
  | high
deriving DecidableEq, Repr

/-- The fuel anomaly result, from fuelIntelligence.ts (`FuelRiskResult`).
The optional human-readable `description` string (presentation only, not
read by any logic) is omitted from the model. -/
structure FuelRiskResult where
  suspiciousDrop : Bool
  dropAmount : Option ℚ := none
  severity : FuelSeverity
deriving DecidableEq, Repr

/-- Constant `DROP_THRESHOLD_L` of fuelIntelligence.ts. -/
def DROP_THRESHOLD_L : ℚ := 5

/-- Constant `STATIONARY_SPEED_KMH` of fuelIntelligence.ts. -/
def STATIONARY_SPEED_KMH : ℚ := 3

/-- Constant `ABNORMAL_RATE_LPH` of fuelIntelligence.ts. -/
def ABNORMAL_RATE_LPH : ℚ := 10

/-- Constant `LOW_SPEED_THRESHOLD_KMH` of fuelIntelligence.ts. -/
def LOW_SPEED_THRESHOLD_KMH : ℚ := 10

/-- The `round1` helper of fuelIntelligence.ts: `Math.round(n * 10) / 10`.
JavaScript `Math.round` rounds half toward positive infinity, which is
`⌊x + 1/2⌋`. -/
def round1 (n : ℚ) : ℚ :=
  ((⌊n * 10 + 1 / 2⌋ : ℤ) : ℚ) / 10

/-- One iteration of the `detectSuddenDrop` loop: the Rule-1 check on a
consecutive snapshot pair (fuelIntelligence.ts lines 61-77). -/
def pairDrop (prev curr : FuelSnapshot) : Option FuelRiskResult :=
  match prev.fuelVolume, curr.fuelVolume, curr.speed with
  | some pv, some cv, some sp =>
      let drop := pv - cv
      if drop > DROP_THRESHOLD_L ∧ sp ≤ STATIONARY_SPEED_KMH then
        some { suspiciousDrop := true, dropAmount := some (round1 drop), severity := .high }
      else Option.none
  | _, _, _ => Option.none

/-- The `detectSuddenDrop` of fuelIntelligence.ts: scan consecutive pairs
left to right, returning on the first match. -/
def detectSuddenDrop : List FuelSnapshot → Option FuelRiskResult
  | prev :: curr :: rest =>
      match pairDrop prev curr with
      | some r => some r
      | Option.none => detectSuddenDrop (curr :: rest)
  | _ => Option.none

/-- The `detectAbnormalConsumption` of fuelIntelligence.ts: compares the
first and last cumulative-consumption readings against the elapsed duration
(one reading per minute assumed). -/
def detectAbnormalConsumption (snapshots : List FuelSnapshot) : Option FuelRiskResult :=
  match snapshots.head?, snapshots.getLast? with
  | some first, some last =>
      match first.fuelConsumedTotal, last.fuelConsumedTotal, last.speed with
      | some f, some l, some sp =>
          let totalConsumed := l - f
          let durationHours : ℚ := (snapshots.length : ℚ) / 60
          let consumptionRate := if durationHours > 0 then totalConsumed / durationHours else 0
          if consumptionRate > ABNORMAL_RATE_LPH ∧ sp < LOW_SPEED_THRESHOLD_KMH then
            some { suspiciousDrop := false, severity := .medium }
          else Option.none
      | _, _, _ => Option.none
  | _, _ => Option.none

/-- The `evaluateFuelRisk` of fuelIntelligence.ts (lines 119-129): fewer than
2 points yields severity none; otherwise Rule 1 (`detectSuddenDrop`) wins
over Rule 2 (`detectAbnormalConsumption`), which wins over the none result —
the `??` chain of the source. -/
def evaluateFuelRisk (snapshots : List FuelSnapshot) : FuelRiskResult :=
  if snapshots.length < 2 then { suspiciousDrop := false, severity := .none }
  else
    match detectSuddenDrop snapshots with
    | some r => r
    | Option.none =>
        match detectAbnormalConsumption snapshots with
        | some r => r
        | Option.none => { suspiciousDrop := false, severity := .none }

/-! ### The FleetAggregator (`loadData` in src/src/App.vue) -/

/-- The service-calculation result spread into `serviceInfo` by the
aggregator.

Modelled from the spec: `serviceEngine.calculateServiceStatus` is not under
src/ (only its caller App.vue is).  Per the spec, the service status is
derived deterministically from the odometer with a fixed 10 000 km service
interval; the status thresholds are: remaining ≤ 500 km critical, ≤ 2000 km
warning, else ok. -/
structure ServiceCalc where
  nextServiceAt : ℚ
  remainingKm : ℚ
  serviceStatus : ServiceStatus
deriving DecidableEq, Repr

/-- Modelled from the spec: the missing `calculateServiceStatus(odometer)` of
serviceEngine.ts — the next service is due at the next multiple of the
10 000 km interval, and the status follows the spec thresholds. -/
def calculateServiceStatus (odometer : ℚ) : ServiceCalc :=
  let nextServiceAt : ℚ := 10000 * ((⌊odometer / 10000⌋ : ℤ) + 1 : ℤ)
  let remainingKm := nextServiceAt - odometer
  { nextServiceAt := nextServiceAt
    remainingKm := remainingKm
    serviceStatus :=
      if remainingKm ≤ 500 then .critical
      else if remainingKm ≤ 2000 then .warning
      else .ok }

/-- An assessment extended with maintenance data, from types/risk.ts
(`AssessmentWithService`).  The optional `weatherData` display attachment is
omitted. -/
structure AssessmentWithService extends RiskAssessment where
  serviceInfo : ServiceInfo
deriving DecidableEq, Repr

/-- The record assembly of `loadData` (App.vue lines 109-118): attach the
service info derived from the vehicle's odometer (`vehicle.Odometer ?? 0`)
to an assessment. -/
def attachService (assessment : RiskAssessment) (vehicle : Vehicle) : AssessmentWithService :=
  let odometer := vehicle.Odometer.getD 0
  let sc := calculateServiceStatus odometer
  { toRiskAssessment := assessment
    serviceInfo :=
      { odometer := odometer
        nextServiceAt := sc.nextServiceAt
        lastServiceAt := none
        remainingKm := sc.remainingKm
        serviceStatus := sc.serviceStatus } }

/-- The per-vehicle fan-out of `loadData` (App.vue lines 60-102).  The
`pipeline` oracle stands for the per-vehicle data gathering inside the inner
`try` (eco-event fetch, conditional weather fetch): an `Except.error` models
any exception thrown there, which the inner `catch` converts to `null`; a
successful fetch yields the eco events and the optional weather data passed
on to `calculateRisk`. -/
def vehicleRawPair (pipeline : Vehicle → Except String (List EcoEvent × Option WeatherData))
    (weatherEnabled : Bool) (now : ℚ) (vehicle : Vehicle) :
    Option (RiskAssessment × Vehicle) :=
  match pipeline vehicle with
  | Except.ok (ecoEvents, weatherData) =>
      some (calculateRisk vehicle (some ecoEvents) weatherData weatherEnabled now, vehicle)
  | Except.error _ => none

/-- The aggregation cycle of `loadData` (App.vue lines 60-120): fan out over
the roster, drop the `null` results of failed vehicles (`validPairs`), and
attach the service info to every surviving pair. -/
def loadData (vehicles : List Vehicle)
    (pipeline : Vehicle → Except String (List EcoEvent × Option WeatherData))
    (weatherEnabled : Bool) (now : ℚ) : List AssessmentWithService :=
  let rawPairs := vehicles.map (vehicleRawPair pipeline weatherEnabled now)
  let validPairs := rawPairs.filterMap id
  validPairs.map (fun p => attachService p.1 p.2)

/-! ### The PriorityRanker (`topFive` in the priority-queue component) -/

/-- One entry of the priority queue (`QueueItem` in the ranker component). -/
structure QueueItem where
  assessment : AssessmentWithService
  position : ℕ
  priorityScore : ℚ
  minutesWithoutCommunication : ℚ
  predictedToWorsen : Bool
deriving DecidableEq, Repr

/-- The `getMinutesWithoutCommunication` of the ranker component: the
running maximum (starting at 0) of the values carried by
`noUpdate`/`noUpdateCritical` reasons.  Reason values are numeric in the
model, so the source's `Number`/`NaN` guard is always passed. -/
def getMinutesWithoutCommunication (a : AssessmentWithService) : ℚ :=
  a.reasons.foldl
    (fun m r =>
      if (r.type = .noUpdate ∨ r.type = .noUpdateCritical) ∧ m < r.value then r.value else m)
    0

/-- The `isPredictedToWorsen` of the ranker component. -/
def isPredictedToWorsen (a : AssessmentWithService) : Bool :=
  a.riskLevel == RiskLevel.critical
    || a.reasons.any (fun r => r.type == RiskReasonType.noUpdateCritical)

/-- The `computePriorityScore` of the ranker component. -/
def computePriorityScore (a : AssessmentWithService) : ℚ :=
  a.riskScore * 2 + getMinutesWithoutCommunication a / 60
    + (if isPredictedToWorsen a then 3 else 0)

/-- The item construction inside `topFive` (before sorting): position is the
placeholder 0, the remaining fields are computed from the assessment. -/
def mkQueueItem (a : AssessmentWithService) : QueueItem :=
  { assessment := a
    position := 0
    priorityScore := computePriorityScore a
    minutesWithoutCommunication := getMinutesWithoutCommunication a
    predictedToWorsen := isPredictedToWorsen a }

/-- The descending comparison used by the ranker's
`items.sort((a, b) => b.priorityScore - a.priorityScore)`. -/
def priorityGE (a b : QueueItem) : Prop :=
  b.priorityScore ≤ a.priorityScore

instance : DecidableRel priorityGE :=
  fun a b => inferInstanceAs (Decidable (b.priorityScore ≤ a.priorityScore))

instance : IsTotal QueueItem priorityGE :=
  ⟨fun a b => le_total b.priorityScore a.priorityScore⟩

instance : IsTrans QueueItem priorityGE :=
  ⟨fun _ _ _ hab hbc => le_trans hbc hab⟩

/-- The final `.map((item, i) => ({ ...item, position: i + 1 }))` of
`topFive`: number the items consecutively starting after `i`. -/
def assignPositions : ℕ → List QueueItem → List QueueItem
  | _, [] => []
  | i, q :: qs => { q with position := i + 1 } :: assignPositions (i + 1) qs

/-- The `topFive` of the ranker component: build the items, sort them
descending by priority score, keep the first five and number them 1-based.
ECMAScript `Array.prototype.sort` is a stable sort, and for the total
preorder induced by this comparator every stable sort returns the same list,
so the sort is modelled by Mathlib's (stable) insertion sort under
`priorityGE`. -/
def topFive (assessments : List AssessmentWithService) : List QueueItem :=
  assignPositions 0 (((assessments.map mkQueueItem).insertionSort priorityGE).take 5)

/-! ### Concrete sample inputs used by the witnesses and counterexamples -/

/-- A sample vehicle: speed 60 km/h, last position at epoch 0. -/
def sampleVehicle : Vehicle :=
  { Code := "V1"
    Name := "Vehicle 1"
    SPZ := none
    Speed := 60
    LastPositionTimestamp := 0
    LastPosition := none }

/-- A sample extended assessment with no reasons and score 0. -/
def sampleAssessment : AssessmentWithService :=
  { vehicleId := "V1"
    vehicleName := "Vehicle 1"
    spz := ""
    speed := 60
    riskScore := 0
    riskLevel := .ok
    reasons := []
    calculatedAt := 0
    position := { latitude := 0, longitude := 0 }
    serviceInfo :=
      { odometer := 0
        nextServiceAt := 10000
        lastServiceAt := none
        remainingKm := 10000
        serviceStatus := .ok } }

/-! ### Helper lemmas about the risk engine -/

theorem calculateRisk_eq_body (vehicle : Vehicle) (ecoEvents : Option (List EcoEvent))
    (weatherData : Option WeatherData) (weatherEnabled : Bool) (now : ℚ) :
    calculateRisk vehicle ecoEvents weatherData weatherEnabled now
      = calculateRiskBody vehicle ecoEvents weatherData weatherEnabled now := rfl

theorem calculateRisk_riskScore (vehicle : Vehicle) (ecoEvents : Option (List EcoEvent))
    (weatherData : Option WeatherData) (weatherEnabled : Bool) (now : ℚ) :
    (calculateRisk vehicle ecoEvents weatherData weatherEnabled now).riskScore
      = (speedRisk vehicle.Speed).1 + (updateRisk now vehicle.LastPositionTimestamp).1
        + (ecoRisk ecoEvents).1
        + (if weatherEnabled then weatherPoints weatherData else 0) := rfl

theorem calculateRisk_reasons (vehicle : Vehicle) (ecoEvents : Option (List EcoEvent))
    (weatherData : Option WeatherData) (weatherEnabled : Bool) (now : ℚ) :
    (calculateRisk vehicle ecoEvents weatherData weatherEnabled now).reasons
      = (speedRisk vehicle.Speed).2 ++ (updateRisk now vehicle.LastPositionTimestamp).2
        ++ (ecoRisk ecoEvents).2
        ++ (if weatherPoints weatherData > 0
            then [{ type := .weather, value := weatherPoints weatherData }] else []) := rfl

theorem speedRisk_no_ecoEvent (speed : ℚ) :
    (speedRisk speed).2.countP (fun r => r.type == RiskReasonType.ecoEvent) = 0 := by
  unfold speedRisk
  split_ifs <;> simp [List.countP_cons]

theorem updateRisk_no_ecoEvent (now lastUpdateTime : ℚ) :
    (updateRisk now lastUpdateTime).2.countP (fun r => r.type == RiskReasonType.ecoEvent) = 0 := by
  unfold updateRisk
  dsimp only
  split_ifs <;> simp [List.countP_cons]

theorem speedRisk_fst_nonneg (speed : ℚ) : 0 ≤ (speedRisk speed).1 := by
  unfold speedRisk
  split_ifs <;> norm_num

theorem updateRisk_fst_nonneg (now lastUpdateTime : ℚ) :
    0 ≤ (updateRisk now lastUpdateTime).1 := by
  unfold updateRisk
  dsimp only
  split_ifs <;> norm_num

theorem speedRisk_fst_int (speed : ℚ) : ∃ n : ℤ, (speedRisk speed).1 = (n : ℚ) := by
  unfold speedRisk
  split_ifs
  · exact ⟨4, by norm_num⟩
  · exact ⟨3, by norm_num⟩
  · exact ⟨2, by norm_num⟩
  · exact ⟨1, by norm_num⟩
  · exact ⟨0, by norm_num⟩

theorem updateRisk_fst_int (now lastUpdateTime : ℚ) :
    ∃ n : ℤ, (updateRisk now lastUpdateTime).1 = (n : ℚ) := by
  unfold updateRisk
  dsimp only
  split_ifs
  · exact ⟨6, by norm_num⟩
  · exact ⟨4, by norm_num⟩
  · exact ⟨2, by norm_num⟩
  · exact ⟨1, by norm_num⟩
  · exact ⟨0, by norm_num⟩

theorem foldl_severity_nonneg (evs : List EcoEvent) (init : ℚ) (hi : 0 ≤ init)
    (h : ∀ e ∈ evs, 0 ≤ e.EventSeverity) :
    0 ≤ evs.foldl (fun sum event => sum + event.EventSeverity) init := by
  induction evs generalizing init with
  | nil => exact hi
  | cons e evs ih =>
      exact ih (init + e.EventSeverity) (add_nonneg hi (h e (List.mem_cons_self e evs)))
        (fun x hx => h x (List.mem_cons_of_mem e hx))

theorem totalSeverity_nonneg (evs : List EcoEvent)
    (h : ∀ e ∈ evs, 0 ≤ e.EventSeverity) : 0 ≤ totalSeverity evs :=
  foldl_severity_nonneg evs 0 le_rfl h

theorem foldl_severity_int (evs : List EcoEvent) (init : ℚ)
    (hi : ∃ n : ℤ, init = (n : ℚ)) (h : ∀ e ∈ evs, ∃ n : ℤ, e.EventSeverity = (n : ℚ)) :
    ∃ n : ℤ, evs.foldl (fun sum event => sum + event.EventSeverity) init = (n : ℚ) := by
  induction evs generalizing init with
  | nil => exact hi
  | cons e evs ih =>
      obtain ⟨m, hm⟩ := hi
      obtain ⟨k, hk⟩ := h e (List.mem_cons_self e evs)
      exact ih (init + e.EventSeverity) ⟨m + k, by push_cast [hm, hk]; ring⟩
        (fun x hx => h x (List.mem_cons_of_mem e hx))

theorem totalSeverity_int (evs : List EcoEvent)
    (h : ∀ e ∈ evs, ∃ n : ℤ, e.EventSeverity = (n : ℚ)) :
    ∃ n : ℤ, totalSeverity evs = (n : ℚ) :=
  foldl_severity_int evs 0 ⟨0, by norm_num⟩ h

theorem weatherPoints_nonneg (weatherData : Option WeatherData) :
    0 ≤ weatherPoints weatherData := by
  cases weatherData <;> simp [weatherPoints]

theorem weatherPoints_int (weatherData : Option WeatherData) :
    ∃ n : ℤ, weatherPoints weatherData = (n : ℚ) := by
  cases weatherData with
  | none => exact ⟨0, by simp [weatherPoints]⟩
  | some w => exact ⟨(calculateWeatherRisk w : ℤ), by simp [weatherPoints]⟩

theorem calculateRisk_riskLevel (vehicle : Vehicle) (ecoEvents : Option (List EcoEvent))
    (weatherData : Option WeatherData) (weatherEnabled : Bool) (now : ℚ) :
    (calculateRisk vehicle ecoEvents weatherData weatherEnabled now).riskLevel
      = riskLevelOfScore
          (calculateRisk vehicle ecoEvents weatherData weatherEnabled now).riskScore := rfl

/-! ### Helper lemmas about the fuel module -/

theorem pairDrop_eq_some {prev curr : FuelSnapshot} {r : FuelRiskResult}
    (h : pairDrop prev curr = some r) :
    ∃ amt : ℚ, r = { suspiciousDrop := true, dropAmount := some amt, severity := .high } := by
  unfold pairDrop at h
  split at h
  · dsimp only at h
    split_ifs at h with hc
    exact ⟨_, (Option.some.inj h).symm⟩
  · exact Option.noConfusion h

theorem detectSuddenDrop_shape (s : List FuelSnapshot) :
    ∀ r, detectSuddenDrop s = some r →
      ∃ amt : ℚ, r = { suspiciousDrop := true, dropAmount := some amt, severity := .high } := by
  induction s with
  | nil => exact fun r h => Option.noConfusion h
  | cons a t ih =>
      cases t with
      | nil => exact fun r h => Option.noConfusion h
      | cons b t2 =>
          intro r h
          unfold detectSuddenDrop at h
          cases hp : pairDrop a b with
          | some x =>
              rw [hp] at h
              obtain ⟨amt, hx⟩ := pairDrop_eq_some hp
              exact ⟨amt, by rw [← Option.some.inj h, hx]⟩
          | none =>
              rw [hp] at h
              exact ih r h

theorem detectAbnormalConsumption_shape (s : List FuelSnapshot) (r : FuelRiskResult)
    (h : detectAbnormalConsumption s = some r) :
    r = { suspiciousDrop := false, dropAmount := none, severity := .medium } := by
  unfold detectAbnormalConsumption at h
  split at h
  · split at h
    · dsimp only at h
      split_ifs at h <;> exact (Option.some.inj h).symm
    · exact Option.noConfusion h
  · exact Option.noConfusion h

/-! ### Helper lemmas about the aggregator -/

theorem map_filterMap_id_map {α β γ : Type _} (l : List α) (f : α → Option β) (g : β → γ) :
    ((l.map f).filterMap id).map g = l.filterMap (fun a => (f a).map g) := by
  rw [List.filterMap_map, List.map_filterMap]
  rfl

/-! ### Helper lemmas about the ranker -/

theorem foldr_max_nonneg (l : List ℚ) : 0 ≤ l.foldr max 0 := by
  induction l with
  | nil => exact le_refl 0
  | cons v t ih => exact le_trans ih (le_max_right v (t.foldr max 0))

theorem getMinutes_foldl_aux (rs : List RiskReason) (m : ℚ) (hm : 0 ≤ m) :
    rs.foldl
        (fun m r =>
          if (r.type = .noUpdate ∨ r.type = .noUpdateCritical) ∧ m < r.value then r.value else m)
        m
      = max m
          (((rs.filter (fun r =>
              r.type == RiskReasonType.noUpdate || r.type == RiskReasonType.noUpdateCritical)).map
            (fun r => r.value)).foldr max 0) := by
  induction rs generalizing m with
  | nil => simp [max_eq_left hm]
  | cons r rs ih =>
      by_cases hf : r.type = .noUpdate ∨ r.type = .noUpdateCritical
      · have hstep :
            (if (r.type = .noUpdate ∨ r.type = .noUpdateCritical) ∧ m < r.value
             then r.value else m) = max m r.value := by
          by_cases hlt : m < r.value
          · rw [if_pos ⟨hf, hlt⟩, max_eq_right (le_of_lt hlt)]
          · rw [if_neg (fun hc => hlt hc.2), max_eq_left (not_lt.mp hlt)]
        have hfb : (r.type == RiskReasonType.noUpdate
            || r.type == RiskReasonType.noUpdateCritical) = true := by
          cases hf with
          | inl h => simp [h]
          | inr h => simp [h]
        rw [List.foldl_cons, hstep, ih (max m r.value) (le_trans hm (le_max_left m r.value)),
          List.filter_cons_of_pos
            (p := fun x : RiskReason =>
              x.type == RiskReasonType.noUpdate || x.type == RiskReasonType.noUpdateCritical)
            hfb,
          List.map_cons, List.foldr_cons, max_assoc]
      · have hstep :
            (if (r.type = .noUpdate ∨ r.type = .noUpdateCritical) ∧ m < r.value
             then r.value else m) = m := if_neg (fun hc => hf hc.1)
        have hfb : (r.type == RiskReasonType.noUpdate
            || r.type == RiskReasonType.noUpdateCritical) = false := by
          push_neg at hf
          simp [hf.1, hf.2]
        rw [List.foldl_cons, hstep, ih m hm,
          List.filter_cons_of_neg
            (p := fun x : RiskReason =>
              x.type == RiskReasonType.noUpdate || x.type == RiskReasonType.noUpdateCritical)
            (by simp [hfb])]

theorem getMinutes_eq (a : AssessmentWithService) :
    getMinutesWithoutCommunication a
      = ((a.reasons.filter (fun r =>
            r.type == RiskReasonType.noUpdate || r.type == RiskReasonType.noUpdateCritical)).map
          (fun r => r.value)).foldr max 0 := by
  unfold getMinutesWithoutCommunication
  rw [getMinutes_foldl_aux a.reasons 0 le_rfl]
  exact max_eq_right (foldr_max_nonneg _)

theorem filter_orderedInsert_score (x : QueueItem) (l : List QueueItem) (s : ℚ) :
    ((l.orderedInsert priorityGE x).filter (fun q => q.priorityScore == s))
      = if x.priorityScore = s
        then x :: l.filter (fun q => q.priorityScore == s)
        else l.filter (fun q => q.priorityScore == s) := by
  induction l with
  | nil =>
      by_cases hx : x.priorityScore = s <;> simp [List.orderedInsert, hx]
  | cons b l ih =>
      by_cases hle : priorityGE x b
      · rw [List.orderedInsert_of_le priorityGE l hle]
        by_cases hx : x.priorityScore = s
        · rw [List.filter_cons_of_pos (p := fun q : QueueItem => q.priorityScore == s)
            (by simp [hx]), if_pos hx]
        · rw [List.filter_cons_of_neg (p := fun q : QueueItem => q.priorityScore == s)
            (by simp [hx]), if_neg hx]
      · have horder : (b :: l).orderedInsert priorityGE x = b :: l.orderedInsert priorityGE x := by
          show (if priorityGE x b then x :: b :: l else b :: l.orderedInsert priorityGE x) = _
          rw [if_neg hle]
        rw [horder]
        by_cases hx : x.priorityScore = s
        · have hgt : x.priorityScore < b.priorityScore := not_le.mp (fun h => hle h)
          have hbs : ¬ (b.priorityScore == s) = true := by
            simp only [beq_iff_eq]
            rw [← hx]
            exact ne_of_gt hgt
          have hfilter : ∀ X : List QueueItem,
              (b :: X).filter (fun q => q.priorityScore == s)
                = X.filter (fun q => q.priorityScore == s) :=
            fun X => List.filter_cons_of_neg hbs
          rw [hfilter, hfilter, ih, if_pos hx]
        · by_cases hb : (b.priorityScore == s) = true
          · have hfilter : ∀ X : List QueueItem,
                (b :: X).filter (fun q => q.priorityScore == s)
                  = b :: X.filter (fun q => q.priorityScore == s) :=
              fun X => List.filter_cons_of_pos hb
            rw [hfilter, hfilter, ih, if_neg hx, if_neg hx]
          · have hfilter : ∀ X : List QueueItem,
                (b :: X).filter (fun q => q.priorityScore == s)
                  = X.filter (fun q => q.priorityScore == s) :=
              fun X => List.filter_cons_of_neg hb
            rw [hfilter, hfilter, ih, if_neg hx]

theorem filter_insertionSort_score (l : List QueueItem) (s : ℚ) :
    ((l.insertionSort priorityGE).filter (fun q => q.priorityScore == s))
      = l.filter (fun q => q.priorityScore == s) := by
  induction l with
  | nil => rfl
  | cons x l ih =>
      show (((l.insertionSort priorityGE).orderedInsert priorityGE x).filter
          (fun q => q.priorityScore == s)) = _
      rw [filter_orderedInsert_score]
      by_cases hx : x.priorityScore = s
      · rw [if_pos hx, ih,
          List.filter_cons_of_pos (p := fun q : QueueItem => q.priorityScore == s) (by simp [hx])]
      · rw [if_neg hx, ih,
          List.filter_cons_of_neg (p := fun q : QueueItem => q.priorityScore == s) (by simp [hx])]

theorem assignPositions_length (i : ℕ) (l : List QueueItem) :
    (assignPositions i l).length = l.length := by
  induction l generalizing i with
  | nil => rfl
  | cons q l ih => simp [assignPositions, ih]

theorem assignPositions_map_position (i : ℕ) (l : List QueueItem) :
    (assignPositions i l).map (fun q => q.position) = List.range' (i + 1) l.length := by
  induction l generalizing i with
  | nil => rfl
  | cons q l ih => simp [assignPositions, ih, List.range'_succ]

theorem assignPositions_map_score (i : ℕ) (l : List QueueItem) :
    (assignPositions i l).map (fun q => q.priorityScore) = l.map (fun q => q.priorityScore) := by
  induction l generalizing i with
  | nil => rfl
  | cons q l ih => simp [assignPositions, ih]

theorem mem_assignPositions {q : QueueItem} {i : ℕ} {l : List QueueItem}
    (h : q ∈ assignPositions i l) :
    ∃ p ∈ l, q.assessment = p.assessment ∧ q.priorityScore = p.priorityScore
      ∧ q.minutesWithoutCommunication = p.minutesWithoutCommunication
      ∧ q.predictedToWorsen = p.predictedToWorsen := by
  induction l generalizing i with
  | nil => exact absurd h (by simp [assignPositions])
  | cons p l ih =>
      rw [assignPositions] at h
      rcases List.mem_cons.mp h with h | h
      · exact ⟨p, List.mem_cons_self p l, by rw [h], by rw [h], by rw [h], by rw [h]⟩
      · obtain ⟨p2, hp2, h1, h2, h3, h4⟩ := ih h
        exact ⟨p2, List.mem_cons_of_mem p hp2, h1, h2, h3, h4⟩

theorem assignPositions_filter_map_assessment (i : ℕ) (l : List QueueItem) (s : ℚ) :
    ((assignPositions i l).filter (fun q => q.priorityScore == s)).map (fun q => q.assessment)
      = (l.filter (fun q => q.priorityScore == s)).map (fun q => q.assessment) := by
  induction l generalizing i with
  | nil => rfl
  | cons p l ih =>
      rw [assignPositions]
      by_cases hp : p.priorityScore = s
      · rw [List.filter_cons_of_pos (p := fun q : QueueItem => q.priorityScore == s) (by simp [hp]),
          List.filter_cons_of_pos (p := fun q : QueueItem => q.priorityScore == s) (by simp [hp]),
          List.map_cons, List.map_cons, ih]
      · rw [List.filter_cons_of_neg (p := fun q : QueueItem => q.priorityScore == s) (by simp [hp]),
          List.filter_cons_of_neg (p := fun q : QueueItem => q.priorityScore == s) (by simp [hp]), ih]

/-! ### Claim theorems -/

/-- C1: `calculateRisk` never raises to its caller: the try/catch wrapper
`tryCalculateRisk` is a total function into `RiskAssessment` (no exception
escapes in the embedding), `calculateRisk` is exactly the wrapped body, and
whenever an internal fault occurs during scoring (an `Except.error` body,
standing for any exception thrown in the `try` block) the wrapper returns an
assessment with riskScore 0, riskLevel "ok" and an empty reasons list. -/
theorem claim_C1 :
    (∀ (vehicle : Vehicle) (ecoEvents : Option (List EcoEvent))
        (weatherData : Option WeatherData) (weatherEnabled : Bool) (now : ℚ),
      calculateRisk vehicle ecoEvents weatherData weatherEnabled now
        = tryCalculateRisk
            (Except.ok (calculateRiskBody vehicle ecoEvents weatherData weatherEnabled now))
            vehicle now)
    ∧ (∀ (e : String) (vehicle : Vehicle) (now : ℚ),
      (tryCalculateRisk (Except.error e) vehicle now).riskScore = 0
      ∧ (tryCalculateRisk (Except.error e) vehicle now).riskLevel = RiskLevel.ok
      ∧ (tryCalculateRisk (Except.error e) vehicle now).reasons = []) :=
  ⟨fun _ _ _ _ _ => rfl, fun _ _ _ => ⟨rfl, rfl, rfl⟩⟩

/-- C2 counterexample: one eco event with severity 0 has severity sum 0, yet
`calculateRisk` still emits an ecoEvent reason (the source test is on list
non-emptiness, not on the severity sum), contradicting the claim that a zero
severity sum emits no ecoEvent reason. -/
theorem claim_C2_counterexample :
    totalSeverity [{ EventSeverity := 0 }] = 0
    ∧ (calculateRisk sampleVehicle (some [{ EventSeverity := 0 }]) none false 0).reasons.countP
        (fun r => r.type == RiskReasonType.ecoEvent) = 1 := by
  constructor
  · norm_num [totalSeverity]
  · norm_num [calculateRisk_reasons, speedRisk, updateRisk, ecoRisk, totalSeverity,
      weatherPoints, sampleVehicle, List.countP_append, List.countP_cons]

/-- C2 (amended): for every vehicle and eco-event list passed to
`calculateRisk`, if the list is non-empty, the reasons list contains exactly
one ecoEvent reason carrying the severity total as its value and the number
of events as its count (never one reason per event), and the total is added
to riskScore; if the list is empty, no ecoEvent reason is emitted.  (The
source emits the aggregated reason for every non-empty list, even when the
severity sum is zero.) -/
theorem claim_C2 (vehicle : Vehicle) (evs : List EcoEvent) (weatherData : Option WeatherData)
    (weatherEnabled : Bool) (now : ℚ) :
    (evs ≠ [] →
      (calculateRisk vehicle (some evs) weatherData weatherEnabled now).reasons.countP
          (fun r => r.type == RiskReasonType.ecoEvent) = 1
      ∧ ({ type := .ecoEvent, value := totalSeverity evs, count := some evs.length } : RiskReason)
          ∈ (calculateRisk vehicle (some evs) weatherData weatherEnabled now).reasons
      ∧ (calculateRisk vehicle (some evs) weatherData weatherEnabled now).riskScore
          = (calculateRisk vehicle none weatherData weatherEnabled now).riskScore
            + totalSeverity evs)
    ∧ (evs = [] →
      (calculateRisk vehicle (some evs) weatherData weatherEnabled now).reasons.countP
          (fun r => r.type == RiskReasonType.ecoEvent) = 0
      ∧ (calculateRisk vehicle (some evs) weatherData weatherEnabled now).riskScore
          = (calculateRisk vehicle none weatherData weatherEnabled now).riskScore) := by
  constructor
  · intro hne
    have hlen : evs.length > 0 := List.length_pos.mpr hne
    have heco : ecoRisk (some evs)
        = (totalSeverity evs,
           [{ type := .ecoEvent, value := totalSeverity evs, count := some evs.length }]) := by
      simp [ecoRisk, hlen]
    refine ⟨?_, ?_, ?_⟩
    · simp only [calculateRisk_reasons, List.countP_append, heco,
        speedRisk_no_ecoEvent, updateRisk_no_ecoEvent]
      split_ifs <;> simp [List.countP_cons]
    · simp [calculateRisk_reasons, heco]
    · rw [calculateRisk_riskScore, calculateRisk_riskScore, heco]
      dsimp only [ecoRisk]
      ring
  · intro he
    subst he
    have heco : ecoRisk (some ([] : List EcoEvent)) = (0, []) := by simp [ecoRisk]
    refine ⟨?_, ?_⟩
    · simp only [calculateRisk_reasons, List.countP_append, heco,
        speedRisk_no_ecoEvent, updateRisk_no_ecoEvent]
      split_ifs <;> simp [List.countP_cons]
    · rw [calculateRisk_riskScore, calculateRisk_riskScore, heco]
      dsimp only [ecoRisk]

/-- C2 witness: three eco events with severities 1, 2, 3 yield exactly one
aggregated ecoEvent reason with value 6 and count 3. -/
theorem claim_C2_witness :
    ({ type := .ecoEvent, value := totalSeverity [⟨1⟩, ⟨2⟩, ⟨3⟩], count := some 3 } : RiskReason)
      ∈ (calculateRisk sampleVehicle (some [⟨1⟩, ⟨2⟩, ⟨3⟩]) none false 0).reasons :=
  ((claim_C2 sampleVehicle [⟨1⟩, ⟨2⟩, ⟨3⟩] none false 0).1 (by simp)).2.1

/-- C3: with a weather observation whose computed contribution is positive,
`weatherEnabled = false` leaves riskScore equal to the no-weather score while
the weather reason still appears; `weatherEnabled = true` adds exactly that
contribution to the no-weather score. -/
theorem claim_C3 (vehicle : Vehicle) (ecoEvents : Option (List EcoEvent)) (w : WeatherData)
    (now : ℚ) (hw : 0 < calculateWeatherRisk w) :
    (calculateRisk vehicle ecoEvents (some w) false now).riskScore
        = (calculateRisk vehicle ecoEvents none false now).riskScore
    ∧ ({ type := .weather, value := ((calculateWeatherRisk w : ℕ) : ℚ) } : RiskReason)
        ∈ (calculateRisk vehicle ecoEvents (some w) false now).reasons
    ∧ (calculateRisk vehicle ecoEvents (some w) true now).riskScore
        = (calculateRisk vehicle ecoEvents none false now).riskScore
          + ((calculateWeatherRisk w : ℕ) : ℚ) := by
  have hwp : weatherPoints (some w) = ((calculateWeatherRisk w : ℕ) : ℚ) := rfl
  have hpos : weatherPoints (some w) > 0 := by
    rw [hwp]
    exact_mod_cast hw
  refine ⟨?_, ?_, ?_⟩
  · simp [calculateRisk_riskScore, weatherPoints]
  · rw [calculateRisk_reasons, if_pos hpos, hwp]
    simp
  · simp only [calculateRisk_riskScore, if_pos, if_neg, hwp, weatherPoints]
    norm_num

/-- C3 witness: a weather bump of 2 points at the sample vehicle. -/
theorem claim_C3_witness :
    (calculateRisk sampleVehicle none (some ⟨2⟩) true 0).riskScore
      = (calculateRisk sampleVehicle none none false 0).riskScore
        + ((calculateWeatherRisk ⟨2⟩ : ℕ) : ℚ) :=
  (claim_C3 sampleVehicle none ⟨2⟩ 0 (by decide)).2.2

/-- C4 counterexample: with non-negative speed and one non-negative (but
fractional) severity 1/2, the returned riskScore is 1/2, which is not an
integer — the claim that riskScore is always a non-negative integer fails. -/
theorem claim_C4_counterexample :
    0 ≤ sampleVehicle.Speed
    ∧ (∀ e ∈ [({ EventSeverity := 1 / 2 } : EcoEvent)], 0 ≤ e.EventSeverity)
    ∧ (calculateRisk sampleVehicle (some [{ EventSeverity := 1 / 2 }]) none false 0).riskScore
        = 1 / 2
    ∧ ¬ ∃ n : ℤ,
        (calculateRisk sampleVehicle (some [{ EventSeverity := 1 / 2 }]) none false 0).riskScore
          = (n : ℚ) := by
  have hsc : (calculateRisk sampleVehicle (some [{ EventSeverity := 1 / 2 }]) none false 0).riskScore
      = 1 / 2 := by
    norm_num [calculateRisk_riskScore, speedRisk, updateRisk, ecoRisk, totalSeverity,
      weatherPoints, sampleVehicle]
  refine ⟨by norm_num [sampleVehicle], ?_, hsc, ?_⟩
  · intro e he
    rw [List.mem_singleton] at he
    subst he
    norm_num
  · rintro ⟨n, hn⟩
    rw [hsc] at hn
    have h2 : (1 : ℚ) = ((2 * n : ℤ) : ℚ) := by
      push_cast
      linarith
    have h3 : (1 : ℤ) = 2 * n := by exact_mod_cast h2
    omega

/-- C4 (amended): for every vehicle with non-negative speed and eco-event
list with non-negative severities (and any weather input), riskScore is a
non-negative rational; it is moreover an integer whenever every event
severity is an integer.  (The source adds raw severities, so a fractional
severity makes the score fractional.) -/
theorem claim_C4 (vehicle : Vehicle) (evs : List EcoEvent) (weatherData : Option WeatherData)
    (weatherEnabled : Bool) (now : ℚ) (hspeed : 0 ≤ vehicle.Speed)
    (hsev : ∀ e ∈ evs, 0 ≤ e.EventSeverity) :
    0 ≤ (calculateRisk vehicle (some evs) weatherData weatherEnabled now).riskScore
    ∧ ((∀ e ∈ evs, ∃ n : ℤ, e.EventSeverity = (n : ℚ)) →
        ∃ n : ℤ,
          (calculateRisk vehicle (some evs) weatherData weatherEnabled now).riskScore
            = (n : ℚ)) := by
  have hec1 : 0 ≤ (ecoRisk (some evs)).1 := by
    by_cases h : evs.length > 0
    · simpa [ecoRisk, h] using totalSeverity_nonneg evs hsev
    · simp [ecoRisk, h]
  constructor
  · rw [calculateRisk_riskScore]
    have h4 : 0 ≤ (if weatherEnabled then weatherPoints weatherData else 0) := by
      split_ifs
      · exact weatherPoints_nonneg weatherData
      · exact le_refl 0
    have h1 := speedRisk_fst_nonneg vehicle.Speed
    have h2 := updateRisk_fst_nonneg now vehicle.LastPositionTimestamp
    linarith
  · intro hint
    obtain ⟨a, ha⟩ := speedRisk_fst_int vehicle.Speed
    obtain ⟨b, hb⟩ := updateRisk_fst_int now vehicle.LastPositionTimestamp
    obtain ⟨c, hc⟩ : ∃ n : ℤ, (ecoRisk (some evs)).1 = (n : ℚ) := by
      by_cases h : evs.length > 0
      · obtain ⟨c, hc⟩ := totalSeverity_int evs hint
        exact ⟨c, by simp [ecoRisk, h, hc]⟩
      · exact ⟨0, by simp [ecoRisk, h]⟩
    obtain ⟨d, hd⟩ := weatherPoints_int weatherData
    refine ⟨a + b + c + (if weatherEnabled then d else 0), ?_⟩
    rw [calculateRisk_riskScore, ha, hb, hc]
    split_ifs
    · rw [hd]
      push_cast
      ring
    · push_cast
      ring

/-- C4 witness: the sample vehicle with one severity-2 event has a
non-negative riskScore. -/
theorem claim_C4_witness :
    0 ≤ (calculateRisk sampleVehicle (some [{ EventSeverity := 2 }]) none false 0).riskScore :=
  (claim_C4 sampleVehicle [{ EventSeverity := 2 }] none false 0
    (by norm_num [sampleVehicle])
    (by
      intro e he
      rw [List.mem_singleton] at he
      subst he
      norm_num)).1

/-- C5: with elapsed time strictly over 360 minutes, speed at most 85, no
eco events and no weather, `calculateRisk` emits exactly the single
noUpdateCritical reason valued at the floored elapsed minutes, riskScore is
exactly 6 and riskLevel is critical. -/
theorem claim_C5 (vehicle : Vehicle) (weatherEnabled : Bool) (now : ℚ)
    (hstale : (now - vehicle.LastPositionTimestamp) / (1000 * 60) > 360)
    (hspeed : vehicle.Speed ≤ 85) :
    (calculateRisk vehicle none none weatherEnabled now).reasons
        = [{ type := .noUpdateCritical,
             value := ((⌊(now - vehicle.LastPositionTimestamp) / (1000 * 60)⌋ : ℤ) : ℚ) }]
    ∧ (calculateRisk vehicle none none weatherEnabled now).riskScore = 6
    ∧ (calculateRisk vehicle none none weatherEnabled now).riskLevel = RiskLevel.critical := by
  have hsp : speedRisk vehicle.Speed = (0, []) := by
    unfold speedRisk
    split_ifs <;> first | rfl | linarith
  have hup : updateRisk now vehicle.LastPositionTimestamp
      = (6, [{ type := .noUpdateCritical,
               value := ((⌊(now - vehicle.LastPositionTimestamp) / (1000 * 60)⌋ : ℤ) : ℚ) }]) := by
    unfold updateRisk
    dsimp only
    rw [if_pos hstale]
  have hscore : (calculateRisk vehicle none none weatherEnabled now).riskScore = 6 := by
    rw [calculateRisk_riskScore, hsp, hup]
    simp [ecoRisk, weatherPoints]
  refine ⟨?_, hscore, ?_⟩
  · rw [calculateRisk_reasons, hsp, hup]
    simp [ecoRisk, weatherPoints]
  · rw [calculateRisk_riskLevel, hscore]
    norm_num [riskLevelOfScore]

/-- C7: `evaluateFuelRisk` returns severity none on series with fewer than 2
points; a two-point series with a drop over 5 L at speed at most 3 km/h
yields severity high, suspiciousDrop true and the drop rounded to one
decimal; the sudden-drop rule has priority over the abnormal-consumption
rule; and `detectSuddenDrop` is the first-match scan over consecutive pairs
(`findSome?` on the zipped pair list). -/
theorem claim_C7 :
    (∀ s : List FuelSnapshot, s.length < 2 →
      evaluateFuelRisk s = { suspiciousDrop := false, dropAmount := none, severity := .none })
    ∧ (∀ (p₀ p₁ : FuelSnapshot) (v₀ v₁ sp : ℚ),
        p₀.fuelVolume = some v₀ → p₁.fuelVolume = some v₁ → p₁.speed = some sp →
        v₀ - v₁ > 5 → sp ≤ 3 →
        evaluateFuelRisk [p₀, p₁]
          = { suspiciousDrop := true, dropAmount := some (round1 (v₀ - v₁)),
              severity := .high })
    ∧ (∀ (s : List FuelSnapshot) (r : FuelRiskResult), 2 ≤ s.length →
        detectSuddenDrop s = some r → evaluateFuelRisk s = r)
    ∧ (∀ s : List FuelSnapshot,
        detectSuddenDrop s = (s.zip s.tail).findSome? (fun ab => pairDrop ab.1 ab.2)) := by
  have hprio : ∀ (s : List FuelSnapshot) (r : FuelRiskResult), 2 ≤ s.length →
      detectSuddenDrop s = some r → evaluateFuelRisk s = r := by
    intro s r hlen hd
    unfold evaluateFuelRisk
    rw [if_neg (Nat.not_lt.mpr hlen), hd]
  refine ⟨?_, ?_, hprio, ?_⟩
  · intro s hlen
    unfold evaluateFuelRisk
    rw [if_pos hlen]
  · intro p₀ p₁ v₀ v₁ sp hv₀ hv₁ hsp hdrop hslow
    have hpair : pairDrop p₀ p₁
        = some { suspiciousDrop := true, dropAmount := some (round1 (v₀ - v₁)),
                 severity := .high } := by
      unfold pairDrop
      rw [hv₀, hv₁, hsp]
      exact if_pos ⟨hdrop, hslow⟩
    have hdet : detectSuddenDrop [p₀, p₁]
        = some { suspiciousDrop := true, dropAmount := some (round1 (v₀ - v₁)),
                 severity := .high } := by
      unfold detectSuddenDrop
      rw [hpair]
    exact hprio [p₀, p₁] _ (by norm_num) hdet
  · intro s
    induction s with
    | nil => rfl
    | cons a t ih =>
        cases t with
        | nil => rfl
        | cons b t2 =>
            show detectSuddenDrop (a :: b :: t2)
              = ((a, b) :: (b :: t2).zip t2).findSome? (fun ab => pairDrop ab.1 ab.2)
            rw [List.findSome?_cons]
            unfold detectSuddenDrop
            cases hp : pairDrop a b with
            | some x => rfl
            | none => exact ih

/-- C7 witness: a two-point series dropping from 10 L to 4 L at standstill
yields the high-severity result with the 6.0 L drop. -/
theorem claim_C7_witness :
    evaluateFuelRisk
        [{ fuelVolume := some 10, speed := some 5 }, { fuelVolume := some 4, speed := some 0 }]
      = { suspiciousDrop := true, dropAmount := some (round1 (10 - 4)), severity := .high } :=
  claim_C7.2.1 { fuelVolume := some 10, speed := some 5 } { fuelVolume := some 4, speed := some 0 }
    10 4 0 rfl rfl rfl (by norm_num) (by norm_num)

/-- C10: every `FuelRiskResult` returned by `evaluateFuelRisk` has severity
none, medium or high (never the declared low), suspiciousDrop holds exactly
when severity is high, and a dropAmount is present exactly when severity is
high. -/
theorem claim_C10 (s : List FuelSnapshot) :
    (evaluateFuelRisk s).severity ≠ FuelSeverity.low
    ∧ ((evaluateFuelRisk s).suspiciousDrop = true
        ↔ (evaluateFuelRisk s).severity = FuelSeverity.high)
    ∧ ((evaluateFuelRisk s).dropAmount.isSome = true
        ↔ (evaluateFuelRisk s).severity = FuelSeverity.high) := by
  unfold evaluateFuelRisk
  split_ifs with hlen
  · simp
  · cases hd : detectSuddenDrop s with
    | some r =>
        obtain ⟨amt, hr⟩ := detectSuddenDrop_shape s r hd
        subst hr
        simp
    | none =>
        cases ha : detectAbnormalConsumption s with
        | some r =>
            have hr := detectAbnormalConsumption_shape s r ha
            subst hr
            simp
        | none => simp

/-- C5 witness: the sample vehicle (speed 60, last seen at epoch 0) scored
400 minutes later. -/
theorem claim_C5_witness :
    (calculateRisk sampleVehicle none none false 24000000).riskScore = 6
    ∧ (calculateRisk sampleVehicle none none false 24000000).riskLevel = RiskLevel.critical :=
  ⟨(claim_C5 sampleVehicle false 24000000 (by norm_num [sampleVehicle])
      (by norm_num [sampleVehicle])).2.1,
   (claim_C5 sampleVehicle false 24000000 (by norm_num [sampleVehicle])
      (by norm_num [sampleVehicle])).2.2⟩

/-- C8: the aggregation cycle is exactly one fully-populated
`AssessmentWithService` record per vehicle whose pipeline succeeded, in
roster order; a failing vehicle contributes nothing and, because each
surviving record is computed from that vehicle's own data alone, a failure
never aborts the batch or affects sibling records.  The second conjunct
makes the count explicit: one record per non-failing vehicle. -/
theorem claim_C8 (vehicles : List Vehicle)
    (pipeline : Vehicle → Except String (List EcoEvent × Option WeatherData))
    (weatherEnabled : Bool) (now : ℚ) :
    loadData vehicles pipeline weatherEnabled now
      = vehicles.filterMap (fun vehicle =>
          match pipeline vehicle with
          | Except.ok (ecoEvents, weatherData) =>
              some (attachService
                (calculateRisk vehicle (some ecoEvents) weatherData weatherEnabled now) vehicle)
          | Except.error _ => none)
    ∧ (loadData vehicles pipeline weatherEnabled now).length
        = (vehicles.filter (fun vehicle => (pipeline vehicle).isOk)).length := by
  have hpt : ∀ v : Vehicle,
      (vehicleRawPair pipeline weatherEnabled now v).map (fun pr => attachService pr.1 pr.2)
        = (match pipeline v with
           | Except.ok (ecoEvents, weatherData) =>
               some (attachService
                 (calculateRisk v (some ecoEvents) weatherData weatherEnabled now) v)
           | Except.error _ => none) := by
    intro v
    unfold vehicleRawPair
    cases hp : pipeline v with
    | ok d => cases d; rfl
    | error e => rfl
  have h1 : loadData vehicles pipeline weatherEnabled now
      = vehicles.filterMap (fun v =>
          (vehicleRawPair pipeline weatherEnabled now v).map
            (fun pr => attachService pr.1 pr.2)) :=
    map_filterMap_id_map vehicles _ _
  have hlen : ∀ vs : List Vehicle,
      (vs.filterMap (fun v =>
          (vehicleRawPair pipeline weatherEnabled now v).map
            (fun pr => attachService pr.1 pr.2))).length
        = (vs.filter (fun vehicle => (pipeline vehicle).isOk)).length := by
    intro vs
    induction vs with
    | nil => rfl
    | cons v t ih =>
        cases hp : pipeline v with
        | ok d =>
            cases d with
            | mk e w =>
                have hv : (vehicleRawPair pipeline weatherEnabled now v).map
                    (fun pr => attachService pr.1 pr.2)
                    = some (attachService (calculateRisk v (some e) w weatherEnabled now) v) := by
                  unfold vehicleRawPair
                  rw [hp]
                  rfl
                have hb : (pipeline v).isOk = true := by
                  rw [hp]
                  rfl
                simp only [List.filterMap_cons, List.filter_cons, hv, hb, if_pos]
                simp [ih]
        | error err =>
            have hv : (vehicleRawPair pipeline weatherEnabled now v).map
                (fun pr => attachService pr.1 pr.2) = none := by
              unfold vehicleRawPair
              rw [hp]
              rfl
            have hb : (pipeline v).isOk = false := by
              rw [hp]
              rfl
            simp only [List.filterMap_cons, List.filter_cons, hv, hb]
            simp [ih]
  constructor
  · rw [h1]
    simp only [hpt]
  · rw [h1]
    exact hlen vehicles

/-- C9: the service-status calculator is a pure function of the vehicle id
alone in the embedding (no clock or randomness input exists), its output is
fully determined by the stable id hash — so repeated calls with the same id
return identical odometer, remainingKm, nextServiceAt and serviceStatus
values — and the returned record satisfies
nextServiceAt = odometer + remainingKm. -/
theorem claim_C9 (id₁ id₂ : String) (h : hashVehicleId id₁ = hashVehicleId id₂) :
    getServiceInfo id₁ = getServiceInfo id₂
    ∧ (getServiceInfo id₁).nextServiceAt
        = (getServiceInfo id₁).odometer + (getServiceInfo id₁).remainingKm := by
  constructor
  · unfold getServiceInfo
    rw [h]
  · unfold getServiceInfo
    dsimp only
    push_cast
    ring

/-- C9 witness: two calls with the same concrete id return the identical
record. -/
theorem claim_C9_witness : getServiceInfo "V1" = getServiceInfo "V1" :=
  (claim_C9 "V1" "V1" rfl).1

/-- C6: for every assessment collection, `topFive` returns at most 5 items,
their composite scores are non-increasing, every item's score is
riskScore × 2 + minutesWithoutCommunication / 60 + (predictedToWorsen ? 3 : 0)
with minutesWithoutCommunication the maximum (0 if none) of the
noUpdate/noUpdateCritical reason values and predictedToWorsen exactly when
the level is critical or a noUpdateCritical reason is carried, positions are
numbered 1-based, and ties keep original input order: within any fixed score
the output assessments are a prefix of the input assessments with that
score. -/
theorem claim_C6 (assessments : List AssessmentWithService) :
    (topFive assessments).length ≤ 5
    ∧ ((topFive assessments).map (fun q => q.priorityScore)).Pairwise (fun a b => b ≤ a)
    ∧ (∀ q ∈ topFive assessments,
        (q.priorityScore
          = q.assessment.riskScore * 2 + q.minutesWithoutCommunication / 60
            + (if q.predictedToWorsen then 3 else 0))
        ∧ q.minutesWithoutCommunication
            = ((q.assessment.reasons.filter (fun r =>
                r.type == RiskReasonType.noUpdate
                  || r.type == RiskReasonType.noUpdateCritical)).map
                (fun r => r.value)).foldr max 0
        ∧ (q.predictedToWorsen = true
            ↔ (q.assessment.riskLevel = RiskLevel.critical
                ∨ ∃ r ∈ q.assessment.reasons, r.type = RiskReasonType.noUpdateCritical)))
    ∧ (topFive assessments).map (fun q => q.position)
        = List.range' 1 (topFive assessments).length
    ∧ (∀ s : ℚ,
        ((topFive assessments).filter (fun q => q.priorityScore == s)).map
            (fun q => q.assessment)
          <+: assessments.filter (fun a => computePriorityScore a == s)) := by
  refine ⟨?_, ?_, ?_, ?_, ?_⟩
  · show (assignPositions 0
        (((assessments.map mkQueueItem).insertionSort priorityGE).take 5)).length ≤ 5
    rw [assignPositions_length, List.length_take]
    exact min_le_left 5 _
  · show ((assignPositions 0
        (((assessments.map mkQueueItem).insertionSort priorityGE).take 5)).map
          (fun q => q.priorityScore)).Pairwise (fun a b => b ≤ a)
    rw [assignPositions_map_score]
    have hs : ((assessments.map mkQueueItem).insertionSort priorityGE).Pairwise priorityGE :=
      List.sorted_insertionSort priorityGE (assessments.map mkQueueItem)
    have ht : (((assessments.map mkQueueItem).insertionSort priorityGE).take 5).Pairwise
        priorityGE :=
      hs.sublist (List.take_sublist 5 _)
    exact List.pairwise_map.mpr ht
  · intro q hq
    obtain ⟨p, hp, ha, hsx, hm, hw⟩ := mem_assignPositions
      (show q ∈ assignPositions 0
          (((assessments.map mkQueueItem).insertionSort priorityGE).take 5) from hq)
    have hp2 : p ∈ assessments.map mkQueueItem :=
      (List.mem_insertionSort priorityGE).mp (List.mem_of_mem_take hp)
    obtain ⟨a, ha2, hpa⟩ := List.mem_map.mp hp2
    subst hpa
    refine ⟨?_, ?_, ?_⟩
    · rw [ha, hsx, hm, hw]
      rfl
    · rw [hm, ha]
      exact getMinutes_eq a
    · rw [hw, ha]
      show isPredictedToWorsen a = true ↔ _
      simp only [isPredictedToWorsen, List.any_eq_true, Bool.or_eq_true, beq_iff_eq]
      exact Iff.rfl
  · show (assignPositions 0
        (((assessments.map mkQueueItem).insertionSort priorityGE).take 5)).map
          (fun q => q.position)
      = List.range' 1 (assignPositions 0
          (((assessments.map mkQueueItem).insertionSort priorityGE).take 5)).length
    rw [assignPositions_map_position, assignPositions_length]
  · intro s
    show ((assignPositions 0
        (((assessments.map mkQueueItem).insertionSort priorityGE).take 5)).filter
          (fun q => q.priorityScore == s)).map (fun q => q.assessment) <+: _
    rw [assignPositions_filter_map_assessment]
    have h1 : (((assessments.map mkQueueItem).insertionSort priorityGE).take 5).filter
          (fun q => q.priorityScore == s)
        <+: ((assessments.map mkQueueItem).insertionSort priorityGE).filter
          (fun q => q.priorityScore == s) :=
      (List.take_prefix 5 _).filter _
    have h2 := h1.map (fun q : QueueItem => q.assessment)
    rw [filter_insertionSort_score] at h2
    have hc1 : ((fun q : QueueItem => q.priorityScore == s) ∘ mkQueueItem)
        = (fun a : AssessmentWithService => computePriorityScore a == s) := rfl
    have hc2 : ((fun q : QueueItem => q.assessment) ∘ mkQueueItem)
        = (fun a : AssessmentWithService => a) := rfl
    have h3 : ((assessments.map mkQueueItem).filter (fun q => q.priorityScore == s)).map
          (fun q => q.assessment)
        = assessments.filter (fun a => computePriorityScore a == s) := by
      rw [List.filter_map, List.map_map, hc1, hc2, List.map_id']
    rw [h3] at h2
    exact h2

/-- C6 witness: on a one-assessment collection the single queue item carries
position 1 and satisfies the composite-score formula. -/
theorem claim_C6_witness :
    ({ mkQueueItem sampleAssessment with position := 1 } : QueueItem).priorityScore
      = ({ mkQueueItem sampleAssessment with position := 1 } : QueueItem).assessment.riskScore * 2
        + ({ mkQueueItem sampleAssessment with
            position := 1 } : QueueItem).minutesWithoutCommunication / 60
        + (if ({ mkQueueItem sampleAssessment with position := 1 } : QueueItem).predictedToWorsen
           then 3 else 0) :=
  ((claim_C6 [sampleAssessment]).2.2.1 _ (List.mem_singleton.mpr rfl)).1

end FleetRisk
